import Mathlib

/-!
Verification of the Allwinner H6 thermal sensor driver
(drivers/thermal/sun50i_h6_ths.c).

Machine integers are modelled as Nat (unsigned) or Int (signed) with
explicit reduction modulo 2 ^ w where the C arithmetic can wrap.
-/

set_option maxRecDepth 4000

/-- Error number EBUSY (Linux errno 16). -/
def EBUSY : Int := 16

/-- Error number EINVAL (Linux errno 22). -/
def EINVAL : Int := 22

/-- Conversion of a C int (assumed in 32-bit range) to u32, as used when an
int value is passed where a u32 is expected: reduction modulo 2 ^ 32. -/
def intToU32 (t : Int) : Nat := (t % 2 ^ 32).toNat

/-- Reinterpretation of a u16 bit pattern as a C s16 value
(two's complement). -/
def u16ToS16 (x : Nat) : Int :=
  if x % 2 ^ 16 < 2 ^ 15 then (x % 2 ^ 16 : Nat) else (x % 2 ^ 16 : Nat) - 2 ^ 16

/-- Truncation of a C int value to s16 on assignment (two's complement
wrap-around into the range -2^15 .. 2^15 - 1). -/
def intToS16 (x : Int) : Int := (x + 2 ^ 15) % 2 ^ 16 - 2 ^ 15

/-- sun50i_h6_ths_calc_temp from sun50i_h6_ths.c:
return 187744 - (int)((val * 1000000) / 14882).
val is u32, so the product val * 1000000 is computed modulo 2 ^ 32; the
quotient is at most (2^32 - 1) / 14882 < 2^31, so the cast to int is the
identity on it. -/
def sun50i_h6_ths_calc_temp (val : Nat) : Int :=
  187744 - (((val * 1000000) % 2 ^ 32) / 14882 : Nat)

/-- sun50i_h6_ths_recalc_reg from sun50i_h6_ths.c:
return (u16)(2794 - temp * 14882 / 1000000).
temp is u32: the product wraps modulo 2 ^ 32, the subtraction is u32
(modelled by adding 2 ^ 32 first, which is sound because the subtrahend is
at most (2^32 - 1) / 1000000 < 2 ^ 32 + 2794), and the final cast to u16
keeps the low 16 bits. -/
def sun50i_h6_ths_recalc_reg (temp : Nat) : Nat :=
  ((2 ^ 32 + 2794 - (temp * 14882 % 2 ^ 32) / 1000000) % 2 ^ 32) % 2 ^ 16

/-- Round trip: feed a computed temperature back through the inverse
register formula, with the C int-to-u32 conversion in between
(recalc_reg takes a u32 parameter). -/
def roundTripRaw (raw : Nat) : Nat :=
  sun50i_h6_ths_recalc_reg (intToU32 (sun50i_h6_ths_calc_temp raw))

/-- C1 counterexample: the claim fails on the code. The conversion is not
monotonically decreasing over raw values up to 12634 (it jumps up between
raw = 4294 and raw = 4295 where the 32-bit product wraps), raw = 5000
yields 140370 rather than about -149034, and raw = 12634 yields -83998
rather than 0. -/
theorem claim_C1_counterexample :
    sun50i_h6_ths_calc_temp 4294 < sun50i_h6_ths_calc_temp 4295 ∧
    sun50i_h6_ths_calc_temp 5000 = 140370 ∧
    sun50i_h6_ths_calc_temp 12634 = -83998 := by
  refine ⟨by decide, by decide, by decide⟩

/-- C1 amended: for raw values at most 4294 (where the 32-bit product does
not wrap) the conversion is strictly decreasing in raw and equals the
linear formula 187744 - raw * 1000000 / 14882 exactly; raw = 0 yields
187744 millidegrees. -/
theorem claim_C1_amended (r1 r2 : Nat) (h1 : r1 < r2) (h2 : r2 ≤ 4294) :
    sun50i_h6_ths_calc_temp r2 < sun50i_h6_ths_calc_temp r1 ∧
    sun50i_h6_ths_calc_temp r1 = 187744 - ((r1 * 1000000) / 14882 : Nat) ∧
    sun50i_h6_ths_calc_temp 0 = 187744 := by
  have hm1 : r1 * 1000000 % 2 ^ 32 = r1 * 1000000 := Nat.mod_eq_of_lt (by omega)
  have hm2 : r2 * 1000000 % 2 ^ 32 = r2 * 1000000 := Nat.mod_eq_of_lt (by omega)
  have hq : r1 * 1000000 / 14882 < r2 * 1000000 / 14882 := by
    have hstep : (r1 * 1000000 + 14882) / 14882 ≤ r2 * 1000000 / 14882 :=
      Nat.div_le_div_right (by omega)
    rw [Nat.add_div_right _ (by norm_num)] at hstep
    omega
  unfold sun50i_h6_ths_calc_temp
  rw [hm1, hm2]
  refine ⟨by omega, by omega, by norm_num⟩

/-- C1 witness: the amended theorem applied at r1 = 0, r2 = 1. -/
theorem claim_C1_witness :
    sun50i_h6_ths_calc_temp 1 < sun50i_h6_ths_calc_temp 0 ∧
    sun50i_h6_ths_calc_temp 0 = 187744 - ((0 * 1000000) / 14882 : Nat) ∧
    sun50i_h6_ths_calc_temp 0 = 187744 :=
  claim_C1_amended 0 1 (by decide) (by decide)

/-- C10: for raw values up to 4294 the code computes the exact linear
formula; from 4295 on, the 32-bit multiplication wraps and the result is
187744 - (val * 1000000 mod 2^32) / 14882, which always differs from the
unwrapped linear formula. -/
theorem claim_C10_overflow (val : Nat) (hv : val < 2 ^ 32) :
    (val ≤ 4294 →
      sun50i_h6_ths_calc_temp val = 187744 - ((val * 1000000) / 14882 : Nat)) ∧
    (4295 ≤ val →
      sun50i_h6_ths_calc_temp val =
        187744 - (((val * 1000000) % 2 ^ 32) / 14882 : Nat) ∧
      sun50i_h6_ths_calc_temp val ≠ 187744 - ((val * 1000000) / 14882 : Nat)) := by
  unfold sun50i_h6_ths_calc_temp
  omega

/-- C10 witness: the theorem applied at val = 4295. -/
theorem claim_C10_witness :
    (4295 ≤ 4294 →
      sun50i_h6_ths_calc_temp 4295 = 187744 - ((4295 * 1000000) / 14882 : Nat)) ∧
    (4295 ≤ 4295 →
      sun50i_h6_ths_calc_temp 4295 =
        187744 - (((4295 * 1000000) % 2 ^ 32) / 14882 : Nat) ∧
      sun50i_h6_ths_calc_temp 4295 ≠ 187744 - ((4295 * 1000000) / 14882 : Nat)) :=
  claim_C10_overflow 4295 (by decide)

/-- C2 counterexample: the round trip is not within plus or minus 1 on the
whole 12-bit raw range: at raw = 3000 the computed temperature is negative
(-13841 millidegrees), its conversion to the u32 parameter of recalc_reg
wraps, and the round trip yields 64242. -/
theorem claim_C2_counterexample :
    roundTripRaw 3000 = 64242 ∧ (3001 : Nat) < 64242 := by
  refine ⟨by decide, by decide⟩

/-- C2 amended: for every raw value at most 2794 (exactly the raw values
whose computed temperature is nonnegative) the inverse register formula
reconstructs the raw value exactly (hence within plus or minus 1); for
larger raw values the negative temperature wraps when converted to the u32
parameter and the round trip fails. -/
theorem claim_C2_amended (raw : Nat) (h : raw ≤ 2794) :
    roundTripRaw raw = raw ∧ 0 ≤ sun50i_h6_ths_calc_temp raw := by
  have hm : raw * 1000000 % 2 ^ 32 = raw * 1000000 := Nat.mod_eq_of_lt (by omega)
  have hdm : 14882 * (raw * 1000000 / 14882) + raw * 1000000 % 14882 = raw * 1000000 :=
    Nat.div_add_mod _ _
  have hrem : raw * 1000000 % 14882 < 14882 := Nat.mod_lt _ (by norm_num)
  have hqlt : raw * 1000000 / 14882 < 187744 :=
    (Nat.div_lt_iff_lt_mul (by norm_num)).mpr (by omega)
  have hcalc : sun50i_h6_ths_calc_temp raw =
      ((187744 - raw * 1000000 / 14882 : Nat) : Int) := by
    unfold sun50i_h6_ths_calc_temp
    rw [hm]
    omega
  have hu32 : intToU32 (sun50i_h6_ths_calc_temp raw) =
      187744 - raw * 1000000 / 14882 := by
    rw [hcalc]
    unfold intToU32
    omega
  refine ⟨?_, by rw [hcalc]; omega⟩
  unfold roundTripRaw
  rw [hu32]
  unfold sun50i_h6_ths_recalc_reg
  have hprod : (187744 - raw * 1000000 / 14882) * 14882 =
      1000000 * (2794 - raw) + (6208 + raw * 1000000 % 14882) := by omega
  have hlt : 1000000 * (2794 - raw) + (6208 + raw * 1000000 % 14882) < 2 ^ 32 := by
    omega
  have hsmall : (6208 + raw * 1000000 % 14882) / 1000000 = 0 :=
    Nat.div_eq_of_lt (by omega)
  rw [hprod, Nat.mod_eq_of_lt hlt, Nat.mul_add_div (by norm_num) (2794 - raw), hsmall]
  omega

/-- C2 witness: the amended theorem applied at raw = 1000. -/
theorem claim_C2_witness :
    roundTripRaw 1000 = 1000 ∧ 0 ≤ sun50i_h6_ths_calc_temp 1000 :=
  claim_C2_amended 1000 (by decide)

/-- Sensor-family configuration (struct sun50i_h6_ths_cfg): sensor count and
the family conversion function. -/
structure sun50i_h6_ths_cfg where
  sensor_num : Nat
  calc_temp : Nat → Int

/-- The H6 configuration from the id table: 2 sensors,
sun50i_h6_ths_calc_temp. -/
def sun50i_h6_ths_cfg_h6 : sun50i_h6_ths_cfg :=
  { sensor_num := 2, calc_temp := sun50i_h6_ths_calc_temp }

/-- Per-sensor entry (struct sun50i_h6_ths_sensor): the latched raw sample
(u32 val). -/
structure sun50i_h6_ths_sensor where
  val : Nat

/-- sun50i_h6_ths_get_temp from sun50i_h6_ths.c: if the latched raw sample
is zero, fail with -EBUSY; otherwise write the family conversion of the
sample to the output. The sensor entry is returned unchanged: the C
function only reads it. -/
def sun50i_h6_ths_get_temp (cfg : sun50i_h6_ths_cfg)
    (sensor : sun50i_h6_ths_sensor) : Except Int Int × sun50i_h6_ths_sensor :=
  if sensor.val = 0 then (Except.error (-EBUSY), sensor)
  else (Except.ok (cfg.calc_temp sensor.val), sensor)

/-- C3: the temperature query fails with -EBUSY exactly when the latched
raw sample is zero, otherwise returns the family conversion function
applied to the stored raw value, and in both cases leaves the sensor entry
unchanged. -/
theorem claim_C3_get_temp (cfg : sun50i_h6_ths_cfg)
    (sensor : sun50i_h6_ths_sensor) :
    ((sun50i_h6_ths_get_temp cfg sensor).1 = Except.error (-EBUSY) ↔
      sensor.val = 0) ∧
    (sensor.val ≠ 0 →
      (sun50i_h6_ths_get_temp cfg sensor).1 =
        Except.ok (cfg.calc_temp sensor.val)) ∧
    (sun50i_h6_ths_get_temp cfg sensor).2 = sensor := by
  unfold sun50i_h6_ths_get_temp
  by_cases hv : sensor.val = 0
  · simp [hv]
  · simp [hv]

/-- C3 witness: the theorem applied to the H6 configuration and a sensor
holding raw sample 5000; also the degenerate sample 0 case. -/
theorem claim_C3_witness :
    ((sun50i_h6_ths_get_temp sun50i_h6_ths_cfg_h6 ⟨5000⟩).1 =
        Except.error (-EBUSY) ↔ (5000 : Nat) = 0) ∧
    ((5000 : Nat) ≠ 0 →
      (sun50i_h6_ths_get_temp sun50i_h6_ths_cfg_h6 ⟨5000⟩).1 =
        Except.ok (sun50i_h6_ths_cfg_h6.calc_temp 5000)) ∧
    (sun50i_h6_ths_get_temp sun50i_h6_ths_cfg_h6 ⟨5000⟩).2 = ⟨5000⟩ :=
  claim_C3_get_temp sun50i_h6_ths_cfg_h6 ⟨5000⟩

/-- BIT(n) from the kernel headers: 1 shifted left by n. -/
def BIT (n : Nat) : Nat := 1 <<< n

/-- BIT n is the n-th power of two. -/
theorem BIT_eq (n : Nat) : BIT n = 2 ^ n := by
  simp [BIT, Nat.shiftLeft_eq]

/-- Device state visible to the threaded interrupt handler: the
THS_H6_DATA_INT_STAT register (u32), the THS_H6_DATA(i) registers, and the
per-sensor latched values sensors[i].val. -/
structure IrqState where
  stat : Nat
  dataReg : Nat → Nat
  sensorVal : Nat → Nat

/-- Register-level events emitted by the handler, in program order: write
to the status register (write-1-to-clear), read of a data register,
thermal_zone_device_update notification for a sensor. -/
inductive RegEvent where
  | writeStat (v : Nat)
  | readData (i : Nat)
  | notifyTz (i : Nat)
deriving DecidableEq

/-- Write-1-to-clear semantics of THS_H6_DATA_INT_STAT: every bit set in
the written value is cleared in the 32-bit register. -/
def w1c (stat v : Nat) : Nat := stat &&& (v ^^^ (2 ^ 32 - 1))

/-- One iteration of the loop in sun50i_h6_ths_irq_thread for sensor i:
if the data-ready status bit of sensor i is not set, do nothing; otherwise
write BIT(i) to the status register (clearing that bit), read the data
register, store it into sensors[i].val, and notify the thermal zone when
the value read is nonzero. -/
def irqStep (s : IrqState) (i : Nat) : IrqState × List RegEvent :=
  if s.stat.testBit i then
    let s1 : IrqState := { s with stat := w1c s.stat (BIT i) }
    let v := s1.dataReg i
    let s2 : IrqState := { s1 with sensorVal := fun j => if j = i then v else s1.sensorVal j }
    (s2, RegEvent.writeStat (BIT i) :: RegEvent.readData i ::
      (if v ≠ 0 then [RegEvent.notifyTz i] else []))
  else (s, [])

/-- The loop of sun50i_h6_ths_irq_thread over sensors 0 .. n-1, processed
in increasing order, threading the device state and concatenating the
event traces. -/
def irqRun : Nat → IrqState → IrqState × List RegEvent
  | 0, s => (s, [])
  | n + 1, s =>
    ((irqStep (irqRun n s).1 n).1, (irqRun n s).2 ++ (irqStep (irqRun n s).1 n).2)

/-- sun50i_h6_ths_irq_thread: drain all sensors of the configuration. -/
def sun50i_h6_ths_irq_thread (cfg : sun50i_h6_ths_cfg) (s : IrqState) :
    IrqState × List RegEvent :=
  irqRun cfg.sensor_num s

theorem w1c_testBit (st : Nat) (hst : st < 2 ^ 32) (i j : Nat) :
    (w1c st (BIT i)).testBit j = if j = i then false else st.testBit j := by
  unfold w1c
  rw [BIT_eq]
  rcases Nat.lt_or_ge j 32 with hj | hj
  · rw [Nat.testBit_and, Nat.testBit_xor, Nat.testBit_two_pow,
      Nat.testBit_two_pow_sub_one]
    by_cases hij : j = i
    · subst hij
      simp [hj]
    · simp [hij, hj, Ne.symm hij]
  · have h0 : st.testBit j = false := by
      apply Nat.testBit_lt_two_pow
      calc st < 2 ^ 32 := hst
        _ ≤ 2 ^ j := Nat.pow_le_pow_right (by norm_num) hj
    rw [Nat.testBit_and, h0]
    by_cases hij : j = i <;> simp [hij]

theorem w1c_lt (st v : Nat) (hst : st < 2 ^ 32) : w1c st v < 2 ^ 32 :=
  Nat.lt_of_le_of_lt (Nat.and_le_left) hst

theorem irqStep_dataReg (s : IrqState) (i : Nat) :
    (irqStep s i).1.dataReg = s.dataReg := by
  unfold irqStep
  split <;> rfl

theorem irqStep_stat_lt (s : IrqState) (hs : s.stat < 2 ^ 32) (i : Nat) :
    (irqStep s i).1.stat < 2 ^ 32 := by
  unfold irqStep
  split
  · exact w1c_lt _ _ hs
  · exact hs

theorem irqStep_stat_testBit (s : IrqState) (hs : s.stat < 2 ^ 32) (i j : Nat) :
    (irqStep s i).1.stat.testBit j = if j = i then false else s.stat.testBit j := by
  unfold irqStep
  split
  · exact w1c_testBit s.stat hs i j
  · next hfalse =>
    by_cases hij : j = i
    · subst hij
      simpa using hfalse
    · simp [hij]

theorem irqStep_sensorVal (s : IrqState) (i j : Nat) :
    (irqStep s i).1.sensorVal j =
      if j = i ∧ s.stat.testBit i then s.dataReg i else s.sensorVal j := by
  unfold irqStep
  split
  · next htrue =>
    by_cases hij : j = i <;> simp [hij, htrue]
  · next hfalse =>
    simp [hfalse]

theorem irqStep_notifyTz_mem (s : IrqState) (i j : Nat) :
    RegEvent.notifyTz j ∈ (irqStep s i).2 ↔
      j = i ∧ s.stat.testBit i = true ∧ s.dataReg i ≠ 0 := by
  unfold irqStep
  split
  · next htrue =>
    by_cases hv : s.dataReg i = 0 <;> by_cases hij : j = i <;>
      simp [hv, hij, htrue]
  · next hfalse =>
    simp [Bool.not_eq_true] at hfalse
    simp [hfalse]

theorem irqRun_dataReg (n : Nat) (s : IrqState) :
    (irqRun n s).1.dataReg = s.dataReg := by
  induction n with
  | zero => rfl
  | succ n ih =>
    show (irqStep (irqRun n s).1 n).1.dataReg = s.dataReg
    rw [irqStep_dataReg, ih]

theorem irqRun_stat_lt (n : Nat) (s : IrqState) (hs : s.stat < 2 ^ 32) :
    (irqRun n s).1.stat < 2 ^ 32 := by
  induction n with
  | zero => exact hs
  | succ n ih => exact irqStep_stat_lt _ ih n

theorem irqRun_stat_testBit (n : Nat) (s : IrqState) (hs : s.stat < 2 ^ 32)
    (j : Nat) :
    (irqRun n s).1.stat.testBit j = if j < n then false else s.stat.testBit j := by
  induction n with
  | zero => simp [irqRun]
  | succ n ih =>
    show (irqStep (irqRun n s).1 n).1.stat.testBit j = _
    rw [irqStep_stat_testBit _ (irqRun_stat_lt n s hs), ih]
    rcases Nat.lt_trichotomy j n with hj | hj | hj
    · simp [hj, Nat.ne_of_lt hj, Nat.lt_succ_of_lt hj]
    · simp [hj, Nat.lt_irrefl, Nat.lt_succ_self]
    · have h1 : ¬ j < n := Nat.not_lt.mpr (Nat.le_of_lt hj)
      have h2 : ¬ j < n + 1 := Nat.not_lt.mpr hj
      have h3 : j ≠ n := Nat.ne_of_gt hj
      simp [h1, h2, h3]

theorem irqRun_sensorVal (n : Nat) (s : IrqState) (hs : s.stat < 2 ^ 32)
    (j : Nat) :
    (irqRun n s).1.sensorVal j =
      if j < n ∧ s.stat.testBit j then s.dataReg j else s.sensorVal j := by
  induction n with
  | zero => simp [irqRun]
  | succ n ih =>
    show (irqStep (irqRun n s).1 n).1.sensorVal j = _
    rw [irqStep_sensorVal, irqRun_stat_testBit n s hs, irqRun_dataReg, ih]
    rcases Nat.lt_trichotomy j n with hj | hj | hj
    · have := Nat.ne_of_lt hj
      by_cases hb : s.stat.testBit j <;>
        simp_all [Nat.lt_succ_of_lt hj]
    · subst hj
      by_cases hb : s.stat.testBit j <;>
        simp_all [Nat.lt_succ_self, Nat.lt_irrefl]
    · have h1 : ¬ j < n := Nat.not_lt.mpr (Nat.le_of_lt hj)
      have h2 : ¬ j < n + 1 := Nat.not_lt.mpr hj
      have h3 : j ≠ n := Nat.ne_of_gt hj
      simp [h1, h2, h3]

theorem irqRun_notifyTz (n : Nat) (s : IrqState) (hs : s.stat < 2 ^ 32)
    (j : Nat) :
    RegEvent.notifyTz j ∈ (irqRun n s).2 ↔
      j < n ∧ s.stat.testBit j = true ∧ s.dataReg j ≠ 0 := by
  induction n with
  | zero => simp [irqRun]
  | succ n ih =>
    show RegEvent.notifyTz j ∈ (irqRun n s).2 ++ (irqStep (irqRun n s).1 n).2 ↔ _
    rw [List.mem_append, ih, irqStep_notifyTz_mem,
      irqRun_stat_testBit n s hs, irqRun_dataReg]
    rcases Nat.lt_trichotomy j n with hj | hj | hj
    · simp [hj, Nat.ne_of_lt hj, Nat.lt_succ_of_lt hj]
    · subst hj
      simp [Nat.lt_irrefl, Nat.lt_succ_self]
    · have h1 : ¬ j < n := Nat.not_lt.mpr (Nat.le_of_lt hj)
      have h2 : ¬ j < n + 1 := Nat.not_lt.mpr hj
      have h3 : j ≠ n := Nat.ne_of_gt hj
      simp [h1, h2, h3]

theorem irqRun_clear_before_read (n : Nat) (s : IrqState)
    (hs : s.stat < 2 ^ 32) (j : Nat) (hj : j < n)
    (hb : s.stat.testBit j = true) :
    ∃ l1 l2 l3, (irqRun n s).2 =
      l1 ++ RegEvent.writeStat (BIT j) :: (l2 ++ RegEvent.readData j :: l3) := by
  induction n with
  | zero => omega
  | succ n ih =>
    show ∃ l1 l2 l3,
      (irqRun n s).2 ++ (irqStep (irqRun n s).1 n).2 = _
    rcases Nat.lt_or_ge j n with hjn | hjn
    · obtain ⟨l1, l2, l3, heq⟩ := ih hjn
      refine ⟨l1, l2, l3 ++ (irqStep (irqRun n s).1 n).2, ?_⟩
      rw [heq]
      simp
    · have hjeq : j = n := by omega
      subst hjeq
      have hbit : (irqRun j s).1.stat.testBit j = true := by
        rw [irqRun_stat_testBit j s hs]
        simp [hb]
      refine ⟨(irqRun j s).2, [],
        if (irqRun j s).1.dataReg j ≠ 0 then [RegEvent.notifyTz j] else [], ?_⟩
      unfold irqStep
      rw [hbit]
      simp

/-- C4: on one invocation of the threaded interrupt handler, every sensor
whose data-ready status bit is set has that bit cleared by a
write-1-to-clear that occurs in the event trace before the read of its
data register, gets the freshly read data-register value stored in its
entry, and a thermal-zone notification is emitted for it exactly when that
value is nonzero; a sensor whose status bit is clear keeps its status bit,
its stored value, and receives no notification. -/
theorem claim_C4_irq_thread (cfg : sun50i_h6_ths_cfg) (s : IrqState)
    (hs : s.stat < 2 ^ 32) (i : Nat) (hi : i < cfg.sensor_num) :
    (s.stat.testBit i = true →
      (sun50i_h6_ths_irq_thread cfg s).1.sensorVal i = s.dataReg i ∧
      (sun50i_h6_ths_irq_thread cfg s).1.stat.testBit i = false ∧
      (RegEvent.notifyTz i ∈ (sun50i_h6_ths_irq_thread cfg s).2 ↔
        s.dataReg i ≠ 0) ∧
      ∃ l1 l2 l3, (sun50i_h6_ths_irq_thread cfg s).2 =
        l1 ++ RegEvent.writeStat (BIT i) :: (l2 ++ RegEvent.readData i :: l3)) ∧
    (s.stat.testBit i = false →
      (sun50i_h6_ths_irq_thread cfg s).1.sensorVal i = s.sensorVal i ∧
      (sun50i_h6_ths_irq_thread cfg s).1.stat.testBit i = false ∧
      RegEvent.notifyTz i ∉ (sun50i_h6_ths_irq_thread cfg s).2) := by
  unfold sun50i_h6_ths_irq_thread
  constructor
  · intro hb
    refine ⟨?_, ?_, ?_, ?_⟩
    · rw [irqRun_sensorVal _ s hs]
      simp [hi, hb]
    · rw [irqRun_stat_testBit _ s hs]
      simp [hi]
    · rw [irqRun_notifyTz _ s hs]
      simp [hi, hb]
    · exact irqRun_clear_before_read _ s hs i hi hb
  · intro hb
    refine ⟨?_, ?_, ?_⟩
    · rw [irqRun_sensorVal _ s hs]
      simp [hb]
    · rw [irqRun_stat_testBit _ s hs]
      simp [hi]
    · rw [irqRun_notifyTz _ s hs]
      simp [hb]

/-- Concrete device state used by the C4 witness: sensor 0 pending with
data 1234, sensor 1 idle. -/
def irqWitnessState : IrqState :=
  { stat := 1, dataReg := fun j => if j = 0 then 1234 else 0,
    sensorVal := fun _ => 0 }

/-- C4 witness: the theorem applied to the H6 configuration (2 sensors),
the concrete state above, and sensor 0. -/
theorem claim_C4_witness :
    (irqWitnessState.stat.testBit 0 = true →
      (sun50i_h6_ths_irq_thread sun50i_h6_ths_cfg_h6 irqWitnessState).1.sensorVal 0 =
        irqWitnessState.dataReg 0 ∧
      (sun50i_h6_ths_irq_thread sun50i_h6_ths_cfg_h6 irqWitnessState).1.stat.testBit 0 =
        false ∧
      (RegEvent.notifyTz 0 ∈
          (sun50i_h6_ths_irq_thread sun50i_h6_ths_cfg_h6 irqWitnessState).2 ↔
        irqWitnessState.dataReg 0 ≠ 0) ∧
      ∃ l1 l2 l3, (sun50i_h6_ths_irq_thread sun50i_h6_ths_cfg_h6 irqWitnessState).2 =
        l1 ++ RegEvent.writeStat (BIT 0) :: (l2 ++ RegEvent.readData 0 :: l3)) ∧
    (irqWitnessState.stat.testBit 0 = false →
      (sun50i_h6_ths_irq_thread sun50i_h6_ths_cfg_h6 irqWitnessState).1.sensorVal 0 =
        irqWitnessState.sensorVal 0 ∧
      (sun50i_h6_ths_irq_thread sun50i_h6_ths_cfg_h6 irqWitnessState).1.stat.testBit 0 =
        false ∧
      RegEvent.notifyTz 0 ∉
        (sun50i_h6_ths_irq_thread sun50i_h6_ths_cfg_h6 irqWitnessState).2) :=
  claim_C4_irq_thread sun50i_h6_ths_cfg_h6 irqWitnessState (by decide) 0 (by decide)

/-- Result of sun50i_h6_ths_calibrate: the returned error code, the
calibration registers THS_H6_CDATA(k) after the call, and whether the
nvmem buffer was passed to kfree before returning. -/
structure CalResult where
  ret : Int
  regs : Nat → Nat
  freed : Bool

/-- ft_temp_orig_reg from sun50i_h6_ths_calibrate: the factory temperature
is the low 12 bits of caldata[0] in 0.1 degree units, scaled by 100 to
millidegrees, pushed through sun50i_h6_ths_recalc_reg, and stored into an
s16 variable (reinterpreting the u16 result). The buffer of u16 words is
modelled as the function caldata from word index to word value. -/
def calFtReg (caldata : Nat → Nat) : Int :=
  u16ToS16 (sun50i_h6_ths_recalc_reg ((caldata 0 &&& 0x0fff) * 100))

/-- cal_val for sensor i of sun50i_h6_ths_calibrate:
diff = (s16)(ft_temp_orig_reg - (s16)caldata[1 + i]);
cal_val = (s16)(THS_H6_CAL_DEFAULT (0x800) - diff).
Both subtractions happen in int and are truncated to s16 on assignment. -/
def calVal (ftreg : Int) (word : Nat) : Int :=
  intToS16 (0x800 - intToS16 (ftreg - u16ToS16 word))

/-- One iteration of the calibration loop for sensor i. The out-of-range
test cal_val & ~THS_H6_CAL_VAL_MASK is the C int bit test; on 32-bit int
it compares the two's-complement pattern of cal_val masked with
0xfffff000 (~0xfff) against zero. An odd sensor does a read-modify-write
keeping the low 16 bits of THS_H6_CDATA(i/2) and placing cal_val << 16 in
the high half; an even sensor writes cal_val as the whole 32-bit word. -/
def calStep (ftreg : Int) (caldata : Nat → Nat) (regs : Nat → Nat) (i : Nat) :
    Nat → Nat :=
  if intToU32 (calVal ftreg (caldata (1 + i))) &&& 0xfffff000 ≠ 0 then
    regs
  else if i % 2 = 1 then
    fun k => if k = i / 2 then
        (regs (i / 2) &&& 0xffff) |||
          intToU32 (calVal ftreg (caldata (1 + i)) * 2 ^ 16)
      else regs k
  else
    fun k => if k = i / 2 then intToU32 (calVal ftreg (caldata (1 + i)))
      else regs k

/-- The calibration loop over sensors 0 .. n-1 in increasing order. -/
def calRun (ftreg : Int) (caldata : Nat → Nat) : Nat → (Nat → Nat) → Nat → Nat
  | 0, regs => regs
  | n + 1, regs => calStep ftreg caldata (calRun ftreg caldata n regs) n

/-- sun50i_h6_ths_calibrate, after a successful nvmem_cell_read that
returned the u16 word buffer caldata with byte length callen: fail with
-EINVAL when the buffer is shorter than 2 + 2 * sensor_num bytes or its
first word is zero (both paths return before kfree), otherwise run the
per-sensor loop and free the buffer. -/
def sun50i_h6_ths_calibrate (n : Nat) (caldata : Nat → Nat) (callen : Nat)
    (regs : Nat → Nat) : CalResult :=
  if callen < 2 + 2 * n then { ret := -EINVAL, regs := regs, freed := false }
  else if caldata 0 = 0 then { ret := -EINVAL, regs := regs, freed := false }
  else { ret := 0, regs := calRun (calFtReg caldata) caldata n regs, freed := true }

/-- C5: with a readable calibration cell, calibrate fails with -EINVAL when
the buffer is shorter than 2 + 2 * sensor_num bytes or its first 16-bit
word is zero, and on those paths it writes no calibration register. -/
theorem claim_C5_invalid_data (n : Nat) (caldata : Nat → Nat) (callen : Nat)
    (regs : Nat → Nat) (h : callen < 2 + 2 * n ∨ caldata 0 = 0) :
    (sun50i_h6_ths_calibrate n caldata callen regs).ret = -EINVAL ∧
    (sun50i_h6_ths_calibrate n caldata callen regs).regs = regs := by
  unfold sun50i_h6_ths_calibrate
  rcases h with h | h
  · rw [if_pos h]
    exact ⟨rfl, rfl⟩
  · by_cases hlen : callen < 2 + 2 * n
    · rw [if_pos hlen]
      exact ⟨rfl, rfl⟩
    · rw [if_neg hlen, if_pos h]
      exact ⟨rfl, rfl⟩

/-- Calibration buffer with a zero first word, used by the C5 witness. -/
def calDataZeroWord : Nat → Nat := fun i => if i = 0 then 0 else 7

/-- C5 witness: a zero first word with a long-enough buffer. -/
theorem claim_C5_witness :
    (sun50i_h6_ths_calibrate 2 calDataZeroWord 6 (fun _ => 0x800)).ret = -EINVAL ∧
    (sun50i_h6_ths_calibrate 2 calDataZeroWord 6 (fun _ => 0x800)).regs =
      (fun _ => 0x800) :=
  claim_C5_invalid_data 2 calDataZeroWord 6 (fun _ => 0x800) (Or.inr rfl)

/-- C9: the claim is right and the code is wrong. On the two -EINVAL paths
of sun50i_h6_ths_calibrate (buffer too short, first word zero) the
function returns without calling kfree on the nvmem buffer, so the buffer
is not released on every return path after a successful read; it is freed
only on the success path. -/
theorem claim_C9_leak :
    (sun50i_h6_ths_calibrate 2 (fun i => if i = 0 then 0 else 1792) 6
      (fun _ => 0x800)).ret = -EINVAL ∧
    (sun50i_h6_ths_calibrate 2 (fun i => if i = 0 then 0 else 1792) 6
      (fun _ => 0x800)).freed = false ∧
    (sun50i_h6_ths_calibrate 2 (fun i => if i = 0 then 768 else 1792) 4
      (fun _ => 0x800)).freed = false ∧
    (sun50i_h6_ths_calibrate 2 (fun i => if i = 0 then 768 else 1792) 6
      (fun _ => 0x800)).freed = true := by
  refine ⟨by decide, by decide, by decide, by decide⟩

theorem calStep_bad (ftreg : Int) (caldata : Nat → Nat) (regs : Nat → Nat)
    (i : Nat) (hbad : intToU32 (calVal ftreg (caldata (1 + i))) &&& 0xfffff000 ≠ 0) :
    calStep ftreg caldata regs i = regs := by
  unfold calStep
  rw [if_pos hbad]

theorem calStep_odd (ftreg : Int) (caldata : Nat → Nat) (regs : Nat → Nat)
    (i : Nat) (hok : intToU32 (calVal ftreg (caldata (1 + i))) &&& 0xfffff000 = 0)
    (hodd : i % 2 = 1) (k : Nat) :
    calStep ftreg caldata regs i k =
      if k = i / 2 then
        (regs (i / 2) &&& 0xffff) |||
          intToU32 (calVal ftreg (caldata (1 + i)) * 2 ^ 16)
      else regs k := by
  unfold calStep
  rw [if_neg (not_not_intro hok), if_pos hodd]

theorem calStep_even (ftreg : Int) (caldata : Nat → Nat) (regs : Nat → Nat)
    (i : Nat) (hok : intToU32 (calVal ftreg (caldata (1 + i))) &&& 0xfffff000 = 0)
    (heven : ¬ i % 2 = 1) (k : Nat) :
    calStep ftreg caldata regs i k =
      if k = i / 2 then intToU32 (calVal ftreg (caldata (1 + i))) else regs k := by
  unfold calStep
  rw [if_neg (not_not_intro hok), if_neg heven]

theorem calStep_other (ftreg : Int) (caldata : Nat → Nat) (regs : Nat → Nat)
    (i k : Nat) (hk : ¬ i / 2 = k) : calStep ftreg caldata regs i k = regs k := by
  have hki : ¬ k = i / 2 := fun h => hk h.symm
  by_cases hbad : intToU32 (calVal ftreg (caldata (1 + i))) &&& 0xfffff000 ≠ 0
  · rw [calStep_bad _ _ _ _ hbad]
  · by_cases hodd : i % 2 = 1
    · rw [calStep_odd _ _ _ _ (not_not.mp hbad) hodd, if_neg hki]
    · rw [calStep_even _ _ _ _ (not_not.mp hbad) hodd, if_neg hki]

/-- Closed form of the calibration loop per pair register k: only sensors
2k and 2k+1 touch THS_H6_CDATA(k); a valid even sensor overwrites the
whole register, a valid odd sensor then does the read-modify-write of the
high half on top of whatever the even half left there. -/
theorem calRun_pair (ftreg : Int) (caldata : Nat → Nat) (n : Nat)
    (regs : Nat → Nat) (k : Nat) :
    calRun ftreg caldata n regs k =
      (if 2 * k + 1 < n ∧
          intToU32 (calVal ftreg (caldata (2 + 2 * k))) &&& 0xfffff000 = 0 then
        ((if 2 * k < n ∧
             intToU32 (calVal ftreg (caldata (1 + 2 * k))) &&& 0xfffff000 = 0 then
            intToU32 (calVal ftreg (caldata (1 + 2 * k)))
          else regs k) &&& 0xffff) |||
          intToU32 (calVal ftreg (caldata (2 + 2 * k)) * 2 ^ 16)
      else
        (if 2 * k < n ∧
            intToU32 (calVal ftreg (caldata (1 + 2 * k))) &&& 0xfffff000 = 0 then
          intToU32 (calVal ftreg (caldata (1 + 2 * k)))
        else regs k)) := by
  induction n with
  | zero =>
    rw [if_neg (fun hc => absurd hc.1 (by omega)),
      if_neg (fun hc => absurd hc.1 (by omega))]
    rfl
  | succ n ih =>
    show calStep ftreg caldata (calRun ftreg caldata n regs) n k = _
    rcases Nat.lt_trichotomy n (2 * k) with hn | hn | hn
    · rw [calStep_other _ _ _ _ _ (by omega), ih]
      simp only [show (2 * k < n + 1) ↔ (2 * k < n) from by omega,
        show (2 * k + 1 < n + 1) ↔ (2 * k + 1 < n) from by omega]
    · -- the step processes the even sensor of pair k
      subst hn
      have hprior : calRun ftreg caldata (2 * k) regs k = regs k := by
        rw [ih, if_neg (fun hc => absurd hc.1 (by omega)),
          if_neg (fun hc => absurd hc.1 (by omega))]
      by_cases hE : intToU32 (calVal ftreg (caldata (1 + 2 * k))) &&& 0xfffff000 = 0
      · rw [calStep_even _ _ _ _ hE (by omega) k,
          show 2 * k / 2 = k from by omega, if_pos rfl,
          if_neg (fun hc => absurd hc.1 (by omega)),
          if_pos (And.intro (by omega) hE)]
      · rw [calStep_bad _ _ _ _ hE, hprior,
          if_neg (fun hc => absurd hc.1 (by omega)),
          if_neg (fun hc => absurd hc.2 hE)]
    · rcases Nat.lt_or_ge (2 * k + 1) n with hn2 | hn2
      · rw [calStep_other _ _ _ _ _ (by omega), ih]
        simp only [show (2 * k < n + 1) ↔ (2 * k < n) from by omega,
          show (2 * k + 1 < n + 1) ↔ (2 * k + 1 < n) from by omega]
      · -- the step processes the odd sensor of pair k
        have hneq : n = 2 * k + 1 := by omega
        subst hneq
        have hprior : calRun ftreg caldata (2 * k + 1) regs k =
            (if 2 * k < 2 * k + 1 ∧
                intToU32 (calVal ftreg (caldata (1 + 2 * k))) &&& 0xfffff000 = 0 then
              intToU32 (calVal ftreg (caldata (1 + 2 * k)))
            else regs k) := by
          rw [ih, if_neg (fun hc => absurd hc.1 (by omega))]
        have hidx : 1 + (2 * k + 1) = 2 + 2 * k := by omega
        by_cases hO : intToU32 (calVal ftreg (caldata (2 + 2 * k))) &&& 0xfffff000 = 0
        · rw [calStep_odd _ _ _ _ (by rw [hidx]; exact hO) (by omega) k,
            show (2 * k + 1) / 2 = k from by omega, if_pos rfl, hidx, hprior]
          by_cases hE : intToU32 (calVal ftreg (caldata (1 + 2 * k))) &&& 0xfffff000 = 0
          · rw [if_pos (And.intro (by omega) hE),
              if_pos (And.intro (by omega) hO),
              if_pos (And.intro (by omega) hE)]
          · rw [if_neg (fun hc => absurd hc.2 hE),
              if_pos (And.intro (by omega) hO),
              if_neg (fun hc => absurd hc.2 hE)]
        · rw [calStep_bad _ _ _ _ (by rw [hidx]; exact fun hc => hO hc), hprior]
          by_cases hE : intToU32 (calVal ftreg (caldata (1 + 2 * k))) &&& 0xfffff000 = 0
          · rw [if_pos (And.intro (by omega) hE),
              if_neg (fun hc => absurd hc.2 hO),
              if_pos (And.intro (by omega) hE)]
          · rw [if_neg (fun hc => absurd hc.2 hE),
              if_neg (fun hc => absurd hc.2 hO),
              if_neg (fun hc => absurd hc.2 hE)]

/-- C6 counterexample input: factory word 300 (30.0 degrees, expected raw
2348), sensor 0 stored word 2348 (cal_val = 0x800, valid), sensor 1 stored
word 0 (cal_val = -300, out of the 12-bit range). -/
def calDataC6 : Nat → Nat :=
  fun i => if i = 0 then 300 else if i = 1 then 2348 else 0

/-- C6 counterexample: with sensor 1 out of range and sensor 0 valid, the
register the two sensors share starts with sensor 1's field at the default
0x800 but ends with that field equal to 0: the even sensor's full-word
write does not leave the out-of-range sensor's register field untouched. -/
theorem claim_C6_counterexample :
    (sun50i_h6_ths_calibrate 2 calDataC6 6 (fun _ => 0x08000800)).ret = 0 ∧
    intToU32 (calVal (calFtReg calDataC6) (calDataC6 2)) &&& 0xfffff000 ≠ 0 ∧
    (0x08000800 : Nat) >>> 16 = 0x800 ∧
    (sun50i_h6_ths_calibrate 2 calDataC6 6 (fun _ => 0x08000800)).regs 0 >>> 16 = 0 := by
  refine ⟨by decide, by decide, by decide, by decide⟩

/-- C6 amended: a sensor i whose derived calibration value is outside the
12-bit range gets no write of its own and calibrate still succeeds; other
sensors' valid values are still written. Its register field survives only
when i is even, or when i is odd and its even partner is also skipped; an
out-of-range odd sensor whose even partner is valid has its field
overwritten with zero by the partner's full-word write. -/
theorem claim_C6_out_of_range (n : Nat) (caldata : Nat → Nat) (callen : Nat)
    (regs : Nat → Nat) (hlen : ¬ callen < 2 + 2 * n) (hword : ¬ caldata 0 = 0)
    (i : Nat) (hi : i < n)
    (hbad : intToU32 (calVal (calFtReg caldata) (caldata (1 + i))) &&& 0xfffff000 ≠ 0) :
    (sun50i_h6_ths_calibrate n caldata callen regs).ret = 0 ∧
    (i % 2 = 0 →
      ¬ (i + 1 < n ∧
        intToU32 (calVal (calFtReg caldata) (caldata (2 + i))) &&& 0xfffff000 = 0) →
      (sun50i_h6_ths_calibrate n caldata callen regs).regs (i / 2) = regs (i / 2)) ∧
    (i % 2 = 0 → i + 1 < n →
      intToU32 (calVal (calFtReg caldata) (caldata (2 + i))) &&& 0xfffff000 = 0 →
      (sun50i_h6_ths_calibrate n caldata callen regs).regs (i / 2) =
        (regs (i / 2) &&& 0xffff) |||
          intToU32 (calVal (calFtReg caldata) (caldata (2 + i)) * 2 ^ 16)) ∧
    (i % 2 = 1 →
      intToU32 (calVal (calFtReg caldata) (caldata i)) &&& 0xfffff000 = 0 →
      (sun50i_h6_ths_calibrate n caldata callen regs).regs (i / 2) =
        intToU32 (calVal (calFtReg caldata) (caldata i))) ∧
    (i % 2 = 1 →
      ¬ intToU32 (calVal (calFtReg caldata) (caldata i)) &&& 0xfffff000 = 0 →
      (sun50i_h6_ths_calibrate n caldata callen regs).regs (i / 2) = regs (i / 2)) := by
  have hret : (sun50i_h6_ths_calibrate n caldata callen regs).ret = 0 := by
    unfold sun50i_h6_ths_calibrate
    rw [if_neg hlen, if_neg hword]
  have hregs : (sun50i_h6_ths_calibrate n caldata callen regs).regs =
      calRun (calFtReg caldata) caldata n regs := by
    unfold sun50i_h6_ths_calibrate
    rw [if_neg hlen, if_neg hword]
  refine ⟨hret, ?_, ?_, ?_, ?_⟩
  · intro he hnot
    rw [hregs, calRun_pair,
      show 2 + 2 * (i / 2) = 2 + i from by omega,
      show 2 * (i / 2) + 1 = i + 1 from by omega,
      show 1 + 2 * (i / 2) = 1 + i from by omega,
      show 2 * (i / 2) = i from by omega,
      if_neg hnot, if_neg (fun hc => absurd hc.2 hbad)]
  · intro he hlt hok
    rw [hregs, calRun_pair,
      show 2 + 2 * (i / 2) = 2 + i from by omega,
      show 2 * (i / 2) + 1 = i + 1 from by omega,
      show 1 + 2 * (i / 2) = 1 + i from by omega,
      show 2 * (i / 2) = i from by omega,
      if_pos (And.intro hlt hok), if_neg (fun hc => absurd hc.2 hbad)]
  · intro ho hok
    rw [hregs, calRun_pair,
      show 2 + 2 * (i / 2) = 1 + i from by omega,
      show 2 * (i / 2) + 1 = i from by omega,
      show 1 + 2 * (i / 2) = i from by omega,
      if_neg (fun hc => absurd hc.2 hbad),
      if_pos (And.intro (show 2 * (i / 2) < n from by omega) hok)]
  · intro ho hnok
    rw [hregs, calRun_pair,
      show 2 + 2 * (i / 2) = 1 + i from by omega,
      show 2 * (i / 2) + 1 = i from by omega,
      show 1 + 2 * (i / 2) = i from by omega,
      if_neg (fun hc => absurd hc.2 hbad),
      if_neg (fun hc => absurd hc.2 hnok)]

/-- C6 witness: the amended theorem applied to the concrete two-sensor
configuration where sensor 1 is out of range and sensor 0 is valid. -/
theorem claim_C6_witness :
    (sun50i_h6_ths_calibrate 2 calDataC6 6 (fun _ => 0x08000800)).ret = 0 ∧
    (1 % 2 = 0 →
      ¬ (1 + 1 < 2 ∧
        intToU32 (calVal (calFtReg calDataC6) (calDataC6 (2 + 1))) &&& 0xfffff000 = 0) →
      (sun50i_h6_ths_calibrate 2 calDataC6 6 (fun _ => 0x08000800)).regs (1 / 2) =
        (fun _ => 0x08000800 : Nat → Nat) (1 / 2)) ∧
    (1 % 2 = 0 → 1 + 1 < 2 →
      intToU32 (calVal (calFtReg calDataC6) (calDataC6 (2 + 1))) &&& 0xfffff000 = 0 →
      (sun50i_h6_ths_calibrate 2 calDataC6 6 (fun _ => 0x08000800)).regs (1 / 2) =
        ((fun _ => 0x08000800 : Nat → Nat) (1 / 2) &&& 0xffff) |||
          intToU32 (calVal (calFtReg calDataC6) (calDataC6 (2 + 1)) * 2 ^ 16)) ∧
    (1 % 2 = 1 →
      intToU32 (calVal (calFtReg calDataC6) (calDataC6 1)) &&& 0xfffff000 = 0 →
      (sun50i_h6_ths_calibrate 2 calDataC6 6 (fun _ => 0x08000800)).regs (1 / 2) =
        intToU32 (calVal (calFtReg calDataC6) (calDataC6 1))) ∧
    (1 % 2 = 1 →
      ¬ intToU32 (calVal (calFtReg calDataC6) (calDataC6 1)) &&& 0xfffff000 = 0 →
      (sun50i_h6_ths_calibrate 2 calDataC6 6 (fun _ => 0x08000800)).regs (1 / 2) =
        (fun _ => 0x08000800 : Nat → Nat) (1 / 2)) :=
  claim_C6_out_of_range 2 calDataC6 6 (fun _ => 0x08000800) (by decide) (by decide)
    1 (by decide) (by decide)

/-- C7 counterexample: when only the even sensor of a pair is written
(sensor 1 out of range), the whole 32-bit register is overwritten by
writel: the upper half that held 0x800 is not preserved but becomes 0. -/
theorem claim_C7_counterexample :
    intToU32 (calVal (calFtReg calDataC6) (calDataC6 2)) &&& 0xfffff000 ≠ 0 ∧
    (sun50i_h6_ths_calibrate 2 calDataC6 6 (fun _ => 0x08000800)).regs 0 = 0x800 ∧
    (0x800 : Nat) >>> 16 = 0 ∧
    (0x08000800 : Nat) >>> 16 = 0x800 := by
  refine ⟨by decide, by decide, by decide, by decide⟩

/-- C7 amended: two consecutive sensors' calibration values are packed in
one 32-bit register, even index in the low 16 bits and odd index in the
high 16 bits. When only the odd sensor of a pair is written, the low half
is preserved by the read-modify-write; when the even sensor is written
(with the odd one out of range or absent) the whole register is written,
so the high half becomes zero rather than being preserved. -/
theorem claim_C7_packing (n : Nat) (caldata : Nat → Nat) (callen : Nat)
    (regs : Nat → Nat) (hlen : ¬ callen < 2 + 2 * n) (hword : ¬ caldata 0 = 0)
    (k : Nat) :
    (2 * k + 1 < n →
      intToU32 (calVal (calFtReg caldata) (caldata (1 + 2 * k))) &&& 0xfffff000 = 0 →
      intToU32 (calVal (calFtReg caldata) (caldata (2 + 2 * k))) &&& 0xfffff000 = 0 →
      (sun50i_h6_ths_calibrate n caldata callen regs).regs k =
        (intToU32 (calVal (calFtReg caldata) (caldata (1 + 2 * k))) &&& 0xffff) |||
          intToU32 (calVal (calFtReg caldata) (caldata (2 + 2 * k)) * 2 ^ 16)) ∧
    (2 * k + 1 < n →
      ¬ intToU32 (calVal (calFtReg caldata) (caldata (1 + 2 * k))) &&& 0xfffff000 = 0 →
      intToU32 (calVal (calFtReg caldata) (caldata (2 + 2 * k))) &&& 0xfffff000 = 0 →
      (sun50i_h6_ths_calibrate n caldata callen regs).regs k =
        (regs k &&& 0xffff) |||
          intToU32 (calVal (calFtReg caldata) (caldata (2 + 2 * k)) * 2 ^ 16)) ∧
    (2 * k < n →
      intToU32 (calVal (calFtReg caldata) (caldata (1 + 2 * k))) &&& 0xfffff000 = 0 →
      ¬ (2 * k + 1 < n ∧
        intToU32 (calVal (calFtReg caldata) (caldata (2 + 2 * k))) &&& 0xfffff000 = 0) →
      (sun50i_h6_ths_calibrate n caldata callen regs).regs k =
        intToU32 (calVal (calFtReg caldata) (caldata (1 + 2 * k)))) := by
  have hregs : (sun50i_h6_ths_calibrate n caldata callen regs).regs =
      calRun (calFtReg caldata) caldata n regs := by
    unfold sun50i_h6_ths_calibrate
    rw [if_neg hlen, if_neg hword]
  refine ⟨?_, ?_, ?_⟩
  · intro hlt hE hO
    rw [hregs, calRun_pair, if_pos (And.intro hlt hO),
      if_pos (And.intro (show 2 * k < n from by omega) hE)]
  · intro hlt hE hO
    rw [hregs, calRun_pair, if_pos (And.intro hlt hO),
      if_neg (fun hc => absurd hc.2 hE)]
  · intro hlt hE hno
    rw [hregs, calRun_pair, if_neg hno, if_pos (And.intro hlt hE)]

/-- C7 witness input: factory word 300 and both sensors' stored word 2348,
so both derived calibration values are the default 0x800 and valid. -/
def calDataC7 : Nat → Nat := fun i => if i = 0 then 300 else 2348

/-- C7 witness: the amended theorem applied to the two-sensor
configuration in which both sensors of pair 0 are valid. -/
theorem claim_C7_witness :
    (2 * 0 + 1 < 2 →
      intToU32 (calVal (calFtReg calDataC7) (calDataC7 (1 + 2 * 0))) &&& 0xfffff000 = 0 →
      intToU32 (calVal (calFtReg calDataC7) (calDataC7 (2 + 2 * 0))) &&& 0xfffff000 = 0 →
      (sun50i_h6_ths_calibrate 2 calDataC7 6 (fun _ => 0x08000800)).regs 0 =
        (intToU32 (calVal (calFtReg calDataC7) (calDataC7 (1 + 2 * 0))) &&& 0xffff) |||
          intToU32 (calVal (calFtReg calDataC7) (calDataC7 (2 + 2 * 0)) * 2 ^ 16)) ∧
    (2 * 0 + 1 < 2 →
      ¬ intToU32 (calVal (calFtReg calDataC7) (calDataC7 (1 + 2 * 0))) &&& 0xfffff000 = 0 →
      intToU32 (calVal (calFtReg calDataC7) (calDataC7 (2 + 2 * 0))) &&& 0xfffff000 = 0 →
      (sun50i_h6_ths_calibrate 2 calDataC7 6 (fun _ => 0x08000800)).regs 0 =
        ((fun _ => 0x08000800 : Nat → Nat) 0 &&& 0xffff) |||
          intToU32 (calVal (calFtReg calDataC7) (calDataC7 (2 + 2 * 0)) * 2 ^ 16)) ∧
    (2 * 0 < 2 →
      intToU32 (calVal (calFtReg calDataC7) (calDataC7 (1 + 2 * 0))) &&& 0xfffff000 = 0 →
      ¬ (2 * 0 + 1 < 2 ∧
        intToU32 (calVal (calFtReg calDataC7) (calDataC7 (2 + 2 * 0))) &&& 0xfffff000 = 0) →
      (sun50i_h6_ths_calibrate 2 calDataC7 6 (fun _ => 0x08000800)).regs 0 =
        intToU32 (calVal (calFtReg calDataC7) (calDataC7 (1 + 2 * 0)))) :=
  claim_C7_packing 2 calDataC7 6 (fun _ => 0x08000800) (by decide) (by decide) 0

/-- writew of a 16-bit value at the base of the 32-bit little-endian
register THS_H6_CDATA(k): the low 16 bits are replaced, the high 16 bits
stay. -/
def writew_low (regs : Nat → Nat) (k v : Nat) : Nat → Nat :=
  fun j => if j = k then (regs k &&& 0xffff0000) ||| (v % 2 ^ 16) else regs j

/-- The revert loop of sun50i_h6_ths_probe:
for (i = 0; i < sensor_num; i += 2) writew(THS_H6_CAL_DEFAULT,
CDATA(i / 2)); the pair indices i / 2 run over 0 .. (n+1)/2 - 1. -/
def revertRun : Nat → (Nat → Nat) → Nat → Nat
  | 0, regs => regs
  | m + 1, regs => writew_low (revertRun m regs) m 0x800

/-- The revert executed by probe when calibrate fails. -/
def sun50i_h6_ths_probe_revert (n : Nat) (regs : Nat → Nat) : Nat → Nat :=
  revertRun ((n + 1) / 2) regs

/-- The calibration stage of sun50i_h6_ths_probe with a readable cell:
run calibrate and, if it fails, run the revert loop on the registers it
left behind. -/
def sun50i_h6_ths_probe_calibration (n : Nat) (caldata : Nat → Nat)
    (callen : Nat) (regs : Nat → Nat) : Nat → Nat :=
  if (sun50i_h6_ths_calibrate n caldata callen regs).ret ≠ 0 then
    sun50i_h6_ths_probe_revert n (sun50i_h6_ths_calibrate n caldata callen regs).regs
  else (sun50i_h6_ths_calibrate n caldata callen regs).regs

theorem revertRun_at (m : Nat) (regs : Nat → Nat) :
    ∀ k, revertRun m regs k =
      if k < m then (regs k &&& 0xffff0000) ||| (0x800 % 2 ^ 16) else regs k := by
  induction m with
  | zero =>
    intro k
    rw [if_neg (by omega)]
    rfl
  | succ m ih =>
    intro k
    show writew_low (revertRun m regs) m 0x800 k = _
    unfold writew_low
    by_cases hk : k = m
    · rw [if_pos hk, hk, ih m, if_neg (by omega), if_pos (by omega)]
    · rw [if_neg hk, ih k]
      by_cases hkm : k < m
      · rw [if_pos hkm, if_pos (by omega)]
      · rw [if_neg hkm, if_neg (by omega)]

theorem calibrate_fail_regs (n : Nat) (caldata : Nat → Nat) (callen : Nat)
    (regs : Nat → Nat)
    (hfail : (sun50i_h6_ths_calibrate n caldata callen regs).ret ≠ 0) :
    (sun50i_h6_ths_calibrate n caldata callen regs).regs = regs := by
  unfold sun50i_h6_ths_calibrate at hfail ⊢
  by_cases h1 : callen < 2 + 2 * n
  · rw [if_pos h1]
  · rw [if_neg h1] at hfail ⊢
    by_cases h2 : caldata 0 = 0
    · rw [if_pos h2]
    · rw [if_neg h2] at hfail
      exact absurd rfl hfail

/-- C8 counterexample: the revert after a failed calibration writes 0x800
only into the low 16-bit half of each calibration register (writew), so a
register whose high half is not 0x800 keeps that high half: not every
sensor's field is reset to the default. -/
theorem claim_C8_counterexample :
    (sun50i_h6_ths_calibrate 2 calDataZeroWord 6 (fun _ => 0x12345678)).ret ≠ 0 ∧
    sun50i_h6_ths_probe_calibration 2 calDataZeroWord 6 (fun _ => 0x12345678) 0 =
      0x12340800 ∧
    (0x12340800 : Nat) >>> 16 = 0x1234 ∧
    (0x1234 : Nat) ≠ 0x800 := by
  refine ⟨by decide, by decide, by decide, by decide⟩

/-- C8 amended: whenever calibrate fails, probe writes the default 0x800
into the low 16-bit half of each calibration register in use and leaves
every high half and every other register unchanged; because the failing
paths of calibrate write no register, a device whose registers held the
hardware default 0x08000800 (0x800 in each half) ends with all of them
still at the default, so no mixed state remains in that case. -/
theorem claim_C8_revert (n : Nat) (caldata : Nat → Nat) (callen : Nat)
    (regs : Nat → Nat)
    (hfail : (sun50i_h6_ths_calibrate n caldata callen regs).ret ≠ 0) :
    (∀ k, k < (n + 1) / 2 →
      sun50i_h6_ths_probe_calibration n caldata callen regs k =
        (regs k &&& 0xffff0000) ||| 0x800) ∧
    (∀ k, (n + 1) / 2 ≤ k →
      sun50i_h6_ths_probe_calibration n caldata callen regs k = regs k) ∧
    ((∀ k, regs k = 0x08000800) →
      ∀ k, sun50i_h6_ths_probe_calibration n caldata callen regs k = 0x08000800) := by
  have hprobe : ∀ k, sun50i_h6_ths_probe_calibration n caldata callen regs k =
      if k < (n + 1) / 2 then (regs k &&& 0xffff0000) ||| (0x800 % 2 ^ 16)
      else regs k := by
    intro k
    unfold sun50i_h6_ths_probe_calibration
    rw [if_pos hfail, calibrate_fail_regs n caldata callen regs hfail]
    exact revertRun_at ((n + 1) / 2) regs k
  refine ⟨?_, ?_, ?_⟩
  · intro k hk
    rw [hprobe k, if_pos hk]
    norm_num
  · intro k hk
    rw [hprobe k, if_neg (by omega)]
  · intro hdef k
    by_cases hk : k < (n + 1) / 2
    · rw [hprobe k, if_pos hk, hdef k]
      decide
    · rw [hprobe k, if_neg hk, hdef k]

/-- C8 witness: the amended theorem applied to a two-sensor device whose
registers hold the hardware default and whose calibration blob has a zero
first word. -/
theorem claim_C8_witness :
    (∀ k, k < (2 + 1) / 2 →
      sun50i_h6_ths_probe_calibration 2 calDataZeroWord 6 (fun _ => 0x08000800) k =
        ((fun _ => 0x08000800 : Nat → Nat) k &&& 0xffff0000) ||| 0x800) ∧
    (∀ k, (2 + 1) / 2 ≤ k →
      sun50i_h6_ths_probe_calibration 2 calDataZeroWord 6 (fun _ => 0x08000800) k =
        (fun _ => 0x08000800 : Nat → Nat) k) ∧
    ((∀ k, (fun _ => 0x08000800 : Nat → Nat) k = 0x08000800) →
      ∀ k, sun50i_h6_ths_probe_calibration 2 calDataZeroWord 6
        (fun _ => 0x08000800) k = 0x08000800) :=
  claim_C8_revert 2 calDataZeroWord 6 (fun _ => 0x08000800) (by decide)
